import Mathlib

/-
Verification development for the Arete interview client
(frontend/test-ui.mjs demo-mode controller, app/interview/[id]/page.tsx,
components/interview/LiveKitRoom.tsx, lib mockData/api client).

The JavaScript/TypeScript source is shallowly embedded: each handler
becomes a Lean function over an explicit state record, asynchronous
callbacks become events of a step function, and timers become explicit
counters/flags.  Outputs (network requests, recognizer start/stop calls,
transcript appends, alerts) are collected in lists.
-/

namespace Arete

/-! ## Transcript entries (page.tsx `messages` state) -/

/-- JS `String.prototype.trim`, modelled over the character list (strip
leading and trailing whitespace) so that it computes by kernel
reduction. -/
def jsTrim (s : String) : String :=
  ⟨((s.data.dropWhile Char.isWhitespace).reverse.dropWhile Char.isWhitespace).reverse⟩

inductive Role where
  | ai
  | candidate
  deriving Repr, DecidableEq

structure Entry where
  role : Role
  text : String
  deriving Repr, DecidableEq

/-! ## page.tsx `handleLiveKitMessage` (lines 85-107)

The handler classifies an incoming text solely by a case-insensitive
check for a leading "you:"; candidate lines have their first four
characters removed and are trimmed, everything else is appended
unchanged as an AI entry. -/

def handleLiveKitMessage (text : String) : Entry :=
  let isUserMessage := (text.toLower).startsWith "you:"
  if isUserMessage then
    { role := Role.candidate, text := jsTrim (text.drop 4) }
  else
    { role := Role.ai, text := text }

/-- Stated from the claim's words, independently of the code: a message is
classified solely by a case-insensitive "you:" test on the text; when it
matches, the entry is a candidate entry holding the text with its first
four characters removed and trimmed; otherwise the entry is an AI entry
holding the text unchanged. -/
def claimC9Classification (text : String) : Entry :=
  if (text.toLower).startsWith "you:" then
    { role := Role.candidate, text := jsTrim (text.drop 4) }
  else
    { role := Role.ai, text := text }

/-! ## Code relay: page.tsx `handleCodeChange` (lines 211-219) and
lib `sendCodeViaWebSocket` (lines 574-586)

`handleCodeChange` stores the new code and, when the WebSocket is open,
immediately calls `sendCodeViaWebSocket`, which re-checks the ready
state and sends a code_snapshot message.  There is no timer anywhere on
this path: one change, one send. -/

/-- lib `sendCodeViaWebSocket`: sends the snapshot only when the socket's
ready state is OPEN, otherwise does nothing. -/
def sendCodeViaWebSocket (wsOpen : Bool) (code : String) : Option String :=
  if wsOpen then some code else none

/-- page.tsx `handleCodeChange`: updates `currentCode` and relays the
snapshot through the WebSocket when it is open.  Returns the new stored
code together with the emitted snapshot, if any. -/
def handleCodeChange (wsOpen : Bool) (code : String) : String × Option String :=
  (code, if wsOpen then sendCodeViaWebSocket wsOpen code else none)

/-- Emissions of the code relay over a chronologically ordered list of
timed editor changes: `handleCodeChange` runs on every change, so each
change with the socket open produces one immediate snapshot. -/
def codeRelayEmits (wsOpen : Bool) : List (Nat × String) → List (Nat × String)
  | [] => []
  | (t, c) :: rest =>
    match (handleCodeChange wsOpen c).2 with
    | some s => (t, s) :: codeRelayEmits wsOpen rest
    | none => codeRelayEmits wsOpen rest

/-- Stated from the claim's words: a trailing-edge debounce with quiet
period `quiet` emits a snapshot only after changes stop for the quiet
period, and the emitted snapshot carries the latest code value.  On a
chronologically ordered change list, a change is emitted `quiet` after
its timestamp unless another change arrives within the quiet period. -/
def trailingDebounceSpec (quiet : Nat) : List (Nat × String) → List (Nat × String)
  | [] => []
  | (t, c) :: rest =>
    match rest with
    | [] => [(t + quiet, c)]
    | (t2, _) :: _ =>
      if t2 ≤ t + quiet then trailingDebounceSpec quiet rest
      else (t + quiet, c) :: trailingDebounceSpec quiet rest

/-! ## LiveKitRoom.tsx `handleDataReceived` (lines 210-247)

The payload is decoded and `JSON.parse`d inside a try block.  A parsed
object dispatches on `data.type`: "transcript" is formatted by role,
"message" forwards `data.text`, and any other value of `type` falls
through both branches and produces nothing.  Only a parse failure
reaches the catch block, which forwards the raw text when it is
nonempty after trimming.  JS `undefined` field reads are modelled as
`Option.none`; template interpolation renders `undefined` as the string
"undefined". -/

/-- The observable fields of a successfully `JSON.parse`d data-channel
object: the `type`, `role` and `text` properties, each possibly absent. -/
structure JsonMsg where
  typeField : Option String
  role : Option String
  text : Option String
  deriving Repr, DecidableEq

/-- An inbound data-channel payload: either its text decodes and parses
as a JSON object (carrying the fields the handler reads), or parsing
throws and only the raw decoded text is available. -/
inductive Payload where
  | valid (j : JsonMsg)
  | invalid (raw : String)
  deriving Repr, DecidableEq

/-- JS template interpolation of a possibly-undefined value. -/
def jsInterp (v : Option String) : String :=
  match v with
  | some s => s
  | none => "undefined"

/-- LiveKitRoom.tsx `handleDataReceived`.  The returned list holds the
values passed to `onMessage` in order (`none` models passing the JS
value `undefined`). -/
def handleDataReceived (p : Payload) : List (Option String) :=
  match p with
  | Payload.valid j =>
    if j.typeField = some "transcript" then
      if j.role = some "candidate" ∨ j.role = some "user" then
        [some ("You: " ++ jsInterp j.text)]
      else
        [j.text]
    else if j.typeField = some "message" then
      [j.text]
    else
      []
  | Payload.invalid raw =>
    if jsTrim raw ≠ "" then [some raw] else []

/-- Holds when a payload cannot be parsed as JSON or its parsed `type`
is not one of the two recognized typed events. -/
def unrecognizedPayload (p : Payload) : Prop :=
  match p with
  | Payload.valid j => j.typeField ≠ some "transcript" ∧ j.typeField ≠ some "message"
  | Payload.invalid _ => True

instance : DecidablePred unrecognizedPayload := by
  intro p
  cases p with
  | valid j => exact instDecidableAnd
  | invalid raw => exact instDecidableTrue

/-! ## page.tsx `handleSubmit` (lines 237-260)

On submission with a live session the handler sets the submitting flag,
appends the fixed closing transcript line, and sends the current code to
the backend.  Success schedules a redirect after 2000 ms; failure clears
the submitting flag and surfaces a retry alert.  `currentCode` is not
written anywhere in the handler. -/

structure PageState where
  sessionId : Option String
  isConnected : Bool
  isSubmitting : Bool
  currentCode : String
  messages : List Entry
  deriving Repr, DecidableEq

/-- Outcome of the `apiClient.submitSolution` network call. -/
inductive SubmitOutcome where
  | ok (redirectUrl : Option String)
  | fail
  deriving Repr, DecidableEq

inductive PageAction where
  | alertMsg (s : String)
  /-- the `apiClient.submitSolution(sessionId, { code })` network call
  with the payload it carries. -/
  | submitSolution (sessionId : String) (code : String)
  | scheduleRedirect (delayMs : Nat) (url : String)
  deriving Repr, DecidableEq

def closingLine : Entry :=
  { role := Role.ai, text := "Great work! Let me review your solution..." }

/-- page.tsx `handleSubmit`, with the awaited network call's outcome as an
explicit parameter.  The `submitSolution` request carries `currentCode`
and is issued before its outcome is known, so it appears in both the
success and the failure branch. -/
def handleSubmit (s : PageState) (o : SubmitOutcome) : PageState × List PageAction :=
  match s.sessionId, s.isConnected with
  | none, _ =>
    (s, [PageAction.alertMsg "Backend not connected. Cannot submit solution."])
  | some _, false =>
    (s, [PageAction.alertMsg "Backend not connected. Cannot submit solution."])
  | some sid, true =>
    let s1 := { s with isSubmitting := true, messages := s.messages ++ [closingLine] }
    match o with
    | SubmitOutcome.ok url =>
      (s1, [PageAction.submitSolution sid s.currentCode,
        PageAction.scheduleRedirect 2000 (url.getD ("/dashboard/" ++ sid))])
    | SubmitOutcome.fail =>
      ({ s1 with isSubmitting := false },
        [PageAction.submitSolution sid s.currentCode,
          PageAction.alertMsg "Failed to submit solution. Please try again."])

/-! ## Demo-mode speech controller (test-ui.mjs `DemoModeAvatar`)

The controller is a single-threaded event-driven machine.  The mutable
refs of the component become record fields; `setTimeout` timers become
explicit counters/flags; browser callbacks become events.  `onstart`
fires only as a consequence of a successful `recognition.start()`, so
its effects (clearing the scheduled flag, resetting the retry counter)
are folded into the transitions that call `start()`; a `start()` call on
an already-started recognizer throws and is caught, leaving the state
unchanged. -/

structure DemoState where
  /-- `isPlayingRef`: AI speech synthesis in flight. -/
  playing : Bool
  /-- `isMutedRef`: the user-facing mute flag. -/
  muted : Bool
  /-- the recognizer is active (between a successful `start()` and its end). -/
  recognizing : Bool
  /-- `restartScheduledRef`. -/
  restartScheduled : Bool
  /-- number of live (set and not yet fired or cleared) restart timers. -/
  restartTimers : Nat
  /-- `restartTimeoutRef` currently references a live timer. -/
  refLive : Bool
  /-- `ttsJustEndedRef`. -/
  ttsJustEnded : Bool
  /-- `audioQueueRef`. -/
  queue : List String
  /-- `pendingTranscriptRef`. -/
  pendingTranscript : String
  /-- `transcriptTimeoutRef` holds a pending silence timer. -/
  silencePending : Bool
  /-- `lastResponseTimeRef` (ms). -/
  lastResponseTime : Nat
  /-- `serviceNotAllowedRetryCount`. -/
  retryCount : Nat
  deriving Repr, DecidableEq

/-- Observable side effects of a transition. -/
inductive DemoOut where
  /-- `recognition.stop()` was called. -/
  | stopCall
  /-- `recognition.start()` was called (successfully). -/
  | startCall
  /-- an audio request for this text was issued to the TTS pipeline. -/
  | ttsRequest (t : String)
  /-- a line was appended to the transcript via `onMessage`. -/
  | transcript (s : String)
  /-- a chat request with this message was sent to the backend. -/
  | chatRequest (msg : String)
  deriving Repr, DecidableEq

/-- Events delivered to the controller by the browser event loop. -/
inductive DemoEv where
  /-- a call to the global `__areteSpeakAI` speak-request function. -/
  | speakReq (t : String)
  /-- a direct `speakText` call (greeting, chat reply, apology line). -/
  | speakDirect (t : String)
  /-- the current utterance finished (audio ended or errored out),
  reaching `handleTTSComplete`. -/
  | ttsComplete
  /-- the 3000 ms timeout clearing `ttsJustEndedRef` fired. -/
  | ttsEndFlagClear
  /-- the pending speech-recognition restart timer fired. -/
  | restartFire
  /-- `recognition.onend`. -/
  | recEnded
  /-- `recognition.onresult` delivered a final result with this transcript. -/
  | recResult (raw : String)
  /-- the 1500 ms transcript silence timer fired at time `now`. -/
  | silenceFire (now : Nat)
  /-- `recognition.onerror` with error "service-not-allowed". -/
  | errServiceNotAllowed
  /-- `recognition.onerror` with error "no-speech". -/
  | errNoSpeech
  /-- the mic button was clicked (`toggleMic`). -/
  | toggleMic
  deriving Repr, DecidableEq

/-- test-ui.mjs `scheduleSpeechRecognitionRestart` (lines 614-649): a
no-op when a restart is already scheduled or the mic is muted; otherwise
it clears any existing timer, sets the scheduled flag and arms a new
timer.  The requested delay does not influence the state shape. -/
def scheduleSpeechRecognitionRestart (s : DemoState) : DemoState :=
  if s.restartScheduled || s.muted then
    s
  else
    { s with
      restartTimers := (s.restartTimers - (if s.refLive then 1 else 0)) + 1,
      refLive := true,
      restartScheduled := true }

/-- Body of test-ui.mjs `speakText` (lines 737-762) up to the audio
request: mark playing, clear `ttsJustEnded`, cancel any pending restart
timer and its flag, and stop the recognizer. -/
def speakTextEffect (s : DemoState) : DemoState :=
  { s with
    playing := true,
    ttsJustEnded := false,
    restartTimers := s.restartTimers - (if s.refLive then 1 else 0),
    refLive := false,
    restartScheduled := false,
    recognizing := false }

/-- test-ui.mjs `handleTTSComplete` (lines 652-681): clear the playing
flag; when the queue is nonempty, shift its head and speak it through
`__areteSpeakAI` (the playing flag is now down, so this reaches
`speakText`); otherwise raise `ttsJustEnded` and, unless muted, schedule
a recognition restart in 2500 ms. -/
def handleTTSComplete (s : DemoState) : DemoState × List DemoOut :=
  let s1 := { s with playing := false }
  match s1.queue with
  | h :: t =>
    (speakTextEffect { s1 with queue := t }, [DemoOut.stopCall, DemoOut.ttsRequest h])
  | [] =>
    let s2 := { s1 with ttsJustEnded := true }
    if s2.muted then (s2, []) else (scheduleSpeechRecognitionRestart s2, [])

/-- test-ui.mjs `__areteSpeakAI` (lines 835-848): enqueue the text when
already speaking, otherwise call `speakText`. -/
def areteSpeakAI (s : DemoState) (t : String) : DemoState × List DemoOut :=
  if s.playing then
    ({ s with queue := s.queue ++ [t] }, [])
  else
    (speakTextEffect s, [DemoOut.stopCall, DemoOut.ttsRequest t])

/-- Callback of the restart timer inside `scheduleSpeechRecognitionRestart`
(lines 630-648): clear the scheduled flag, bail out when muted or when
TTS is playing, and otherwise try `recognition.start()` (folding in the
`onstart` effects on success; a throw on an already-started recognizer
is swallowed). -/
def restartFireStep (s : DemoState) : DemoState × List DemoOut :=
  if s.restartTimers = 0 then
    (s, [])
  else
    let s1 := { s with
      restartTimers := s.restartTimers - 1,
      refLive := false,
      restartScheduled := false }
    if s1.muted || s1.playing then
      (s1, [])
    else if s1.recognizing then
      (s1, [])
    else
      ({ s1 with recognizing := true, retryCount := 0 }, [DemoOut.startCall])

/-- test-ui.mjs `recognition.onend` (lines 1183-1201): the recognizer is
no longer active; when TTS just ended the TTS handler owns the restart;
otherwise schedule a 500 ms restart unless muted or TTS is playing. -/
def recEndedStep (s : DemoState) : DemoState × List DemoOut :=
  let s1 := { s with recognizing := false }
  if s1.ttsJustEnded then
    (s1, [])
  else if !s1.muted && !s1.playing then
    (scheduleSpeechRecognitionRestart s1, [])
  else
    (s1, [])

/-- test-ui.mjs `recognition.onresult` (lines 1090-1148) for a final
result: ignored outright while the AI is speaking; short fragments
(trimmed length below 3) are discarded as noise; otherwise the trimmed
transcript is appended to the pending buffer and the 1500 ms silence
timer is (re)armed. -/
def recResultStep (s : DemoState) (raw : String) : DemoState × List DemoOut :=
  if s.playing then
    (s, [])
  else
    let tr := jsTrim raw
    if tr.length < 3 then
      (s, [])
    else
      ({ s with
          pendingTranscript := s.pendingTranscript ++ " " ++ tr,
          silencePending := true }, [])

/-- Callback of the transcript silence timer (lines 1117-1146), fused
with the synchronous head of `handleUserSpeech` (lines 1232-1254): flush
the pending buffer; an empty flush does nothing; within the 3000 ms
cooldown, or when the AI started speaking meanwhile, the utterance is
appended to the transcript but no chat request is made; otherwise the
response time is recorded, the utterance is appended, and one chat
request is issued. -/
def silenceFireStep (s : DemoState) (now : Nat) : DemoState × List DemoOut :=
  if !s.silencePending then
    (s, [])
  else
    let full := jsTrim s.pendingTranscript
    let s1 := { s with silencePending := false, pendingTranscript := "" }
    if full = "" then
      (s1, [])
    else if now - s1.lastResponseTime < 3000 then
      (s1, [DemoOut.transcript ("You: " ++ full)])
    else if s1.playing then
      (s1, [DemoOut.transcript ("You: " ++ full)])
    else
      ({ s1 with lastResponseTime := now },
        [DemoOut.transcript ("You: " ++ full), DemoOut.chatRequest full])

/-- test-ui.mjs `toggleMic` (lines 1278-1294): flip the mute flag; when
muting, stop the recognizer; when unmuting, try `recognition.start()`
(folding in `onstart` on success; a throw on an already-started
recognizer is swallowed). -/
def toggleMicStep (s : DemoState) : DemoState × List DemoOut :=
  let newMuted := !s.muted
  if newMuted then
    ({ s with muted := newMuted, recognizing := false }, [DemoOut.stopCall])
  else if s.recognizing then
    ({ s with muted := newMuted }, [])
  else
    ({ s with muted := newMuted, recognizing := true, restartScheduled := false,
               retryCount := 0 }, [DemoOut.startCall])

/-- `recognition.onerror` for "service-not-allowed" (lines 1154-1169):
bump the retry counter and schedule a backoff restart. -/
def errServiceStep (s : DemoState) : DemoState × List DemoOut :=
  (scheduleSpeechRecognitionRestart { s with retryCount := s.retryCount + 1 }, [])

/-- One step of the demo-mode controller. -/
def demoStep (s : DemoState) : DemoEv → DemoState × List DemoOut
  | DemoEv.speakReq t => areteSpeakAI s t
  | DemoEv.speakDirect t =>
    (speakTextEffect s, [DemoOut.stopCall, DemoOut.ttsRequest t])
  | DemoEv.ttsComplete => handleTTSComplete s
  | DemoEv.ttsEndFlagClear => ({ s with ttsJustEnded := false }, [])
  | DemoEv.restartFire => restartFireStep s
  | DemoEv.recEnded => recEndedStep s
  | DemoEv.recResult raw => recResultStep s raw
  | DemoEv.silenceFire now => silenceFireStep s now
  | DemoEv.errServiceNotAllowed => errServiceStep s
  | DemoEv.errNoSpeech => (s, [])
  | DemoEv.toggleMic => toggleMicStep s

/-- Run the controller over a list of events. -/
def demoRun (s : DemoState) : List DemoEv → DemoState
  | [] => s
  | e :: es => demoRun (demoStep s e).1 es

/-- Component state right after mount in demo mode: not playing, not
muted, recognizer started, no timers pending, queue empty. -/
def demoInit : DemoState :=
  { playing := false
    muted := false
    recognizing := true
    restartScheduled := false
    restartTimers := 0
    refLive := false
    ttsJustEnded := false
    queue := []
    pendingTranscript := ""
    silencePending := false
    lastResponseTime := 0
    retryCount := 0 }

/-! ## Playback-order view of the synthesis queue

To reason about utterance ordering and concurrency, the functions
`__areteSpeakAI` (lines 835-848) and the queue-processing part of
`handleTTSComplete` (lines 652-666) are viewed with the playback slot as
a list of currently playing utterances: `speakText` starts playback of
its text (consing it onto the slot), and `isPlayingRef` corresponds to
the slot being nonempty.  A completion ends the audible utterance at the
head of the slot and, when the queue is nonempty, shifts its head out —
but the source hands that head to `__areteSpeakAI` only through a 100 ms
`setTimeout` (lines 658-665), so the shifted head sits in a pending
handoff slot until the timer callback fires as its own event.  During
that window `isPlayingRef` is false, so a fresh speak request can start
playing before the dequeued head does. -/

structure SpeakSt where
  /-- utterances whose playback has fully ended, in completion order. -/
  played : List String
  /-- utterances currently being played. -/
  current : List String
  /-- `audioQueueRef`. -/
  queue : List String
  /-- texts shifted out of the queue whose 100 ms `setTimeout` handoff to
  `__areteSpeakAI` has not fired yet, in scheduling order. -/
  pendingHandoff : List String
  deriving Repr, DecidableEq

/-- `speakText` in the playback view: start playing the text. -/
def speakTextQ (q : SpeakSt) (t : String) : SpeakSt :=
  { q with current := t :: q.current }

/-- `__areteSpeakAI` in the playback view: enqueue when already
speaking, otherwise speak at once. -/
def areteSpeakAIQ (q : SpeakSt) (t : String) : SpeakSt :=
  if q.current.isEmpty then speakTextQ q t else { q with queue := q.queue ++ [t] }

/-- `handleTTSComplete` in the playback view: the audible utterance
ends; when the queue is nonempty its head is shifted out and a
`setTimeout` handoff of it to `__areteSpeakAI` is scheduled. -/
def handleTTSCompleteQ (q : SpeakSt) : SpeakSt :=
  match q.current with
  | [] => q
  | c :: rest =>
    let q1 : SpeakSt := { q with played := q.played ++ [c], current := rest }
    match q1.queue with
    | [] => q1
    | h :: t => { q1 with queue := t, pendingHandoff := q1.pendingHandoff ++ [h] }

/-- Firing of the oldest scheduled 100 ms handoff timer: the shifted
text is delivered to `__areteSpeakAI` (test-ui.mjs lines 660-664). -/
def handoffFireQ (q : SpeakSt) : SpeakSt :=
  match q.pendingHandoff with
  | [] => q
  | h :: hs => areteSpeakAIQ { q with pendingHandoff := hs } h

/-- Events at the synthesis controller's speak-request interface. -/
inductive QEvent where
  /-- a `speak(text)` request (a call to `__areteSpeakAI`). -/
  | req (t : String)
  /-- completion of the currently playing utterance. -/
  | complete
  /-- the 100 ms handoff timer scheduled by a completion fired. -/
  | handoffFire
  deriving Repr, DecidableEq

def qStep (q : SpeakSt) : QEvent → SpeakSt
  | QEvent.req t => areteSpeakAIQ q t
  | QEvent.complete => handleTTSCompleteQ q
  | QEvent.handoffFire => handoffFireQ q

def qRun (q : SpeakSt) : List QEvent → SpeakSt
  | [] => q
  | e :: es => qRun (qStep q e) es

def qInit : SpeakSt := { played := [], current := [], queue := [], pendingHandoff := [] }

/-- The speak requests of an event list, in request order. -/
def qReqs : List QEvent → List String
  | [] => []
  | QEvent.req t :: es => t :: qReqs es
  | QEvent.complete :: es => qReqs es
  | QEvent.handoffFire :: es => qReqs es

/-- Per-event side condition of the amended FIFO claim: a speak request
must not arrive while a completion-to-handoff window is open. -/
def reqOkForFifo (q : SpeakSt) : QEvent → Bool
  | QEvent.req _ => q.pendingHandoff.isEmpty
  | _ => true

/-- Trace condition for the amended FIFO claim: no speak request lands
inside the 100 ms window between an utterance's completion and the
handoff of the dequeued head. -/
def noReqDuringHandoff : SpeakSt → List QEvent → Bool
  | _, [] => true
  | q, e :: es => reqOkForFifo q e && noReqDuringHandoff (qStep q e) es

/-! ## Synthesis provider selection (test-ui.mjs `speakText`, lines
764-833, and `speakWithBrowserTTS`, lines 684-734)

The remote branch of `speakText` awaits the `/api/tts` fetch.  A thrown
fetch error, a non-OK response, an audio blob smaller than 100 bytes, an
audio element error, or a rejected `play()` all route to
`speakWithBrowserTTS` with the same text; only an OK response with a
plausible blob that actually plays stays on the remote path. -/

/-- Outcome of the remote TTS attempt, as observed by `speakText`. -/
inductive TtsFetchOutcome where
  /-- the fetch (or any awaited step) threw. -/
  | netError
  /-- the response arrived with `response.ok` false. -/
  | httpNotOk
  /-- an OK response with an audio blob of this size; `playFails` records
  whether the audio element subsequently errored or `play()` rejected. -/
  | okBlob (size : Nat) (playFails : Bool)
  deriving Repr, DecidableEq

/-- Which synthesis path ends up speaking the text. -/
inductive SpeakPath where
  | remoteAudio (t : String)
  | browserFallback (t : String)
  deriving Repr, DecidableEq

/-- test-ui.mjs line 785: blobs under 100 bytes are implausible. -/
def minPlausibleAudioBytes : Nat := 100

/-- Provider selection of `speakText` for a given remote outcome. -/
def speakText (t : String) : TtsFetchOutcome → SpeakPath
  | TtsFetchOutcome.netError => SpeakPath.browserFallback t
  | TtsFetchOutcome.httpNotOk => SpeakPath.browserFallback t
  | TtsFetchOutcome.okBlob size playFails =>
    if size < minPlausibleAudioBytes then SpeakPath.browserFallback t
    else if playFails then SpeakPath.browserFallback t
    else SpeakPath.remoteAudio t

/-- Result of `speakWithBrowserTTS`: the surfaced TTS error, if any, and
whether `handleTTSComplete` was reached (the turn was marked done). -/
structure BrowserTtsResult where
  ttsError : Option String
  completed : Bool
  deriving Repr, DecidableEq

/-- test-ui.mjs `speakWithBrowserTTS`: when `speechSynthesis` is absent
the error is surfaced and the turn completes immediately; otherwise the
utterance is spoken and both `onend` and `onerror` route to
`handleTTSComplete`, surfacing a non-fatal error in the error case. -/
def speakWithBrowserTTS (supported : Bool) (utterErr : Bool) : BrowserTtsResult :=
  if !supported then
    { ttsError := some "TTS not supported in this browser", completed := true }
  else if utterErr then
    { ttsError := some "Audio blocked - click page to enable", completed := true }
  else
    { ttsError := none, completed := true }

/-! ## Theorems -/

/-- `scheduleSpeechRecognitionRestart` only touches the restart-timer
bookkeeping fields. -/
@[simp] theorem scheduleRestart_playing (s : DemoState) :
    (scheduleSpeechRecognitionRestart s).playing = s.playing := by
  unfold scheduleSpeechRecognitionRestart
  split <;> rfl

@[simp] theorem scheduleRestart_muted (s : DemoState) :
    (scheduleSpeechRecognitionRestart s).muted = s.muted := by
  unfold scheduleSpeechRecognitionRestart
  split <;> rfl

@[simp] theorem scheduleRestart_recognizing (s : DemoState) :
    (scheduleSpeechRecognitionRestart s).recognizing = s.recognizing := by
  unfold scheduleSpeechRecognitionRestart
  split <;> rfl

@[simp] theorem scheduleRestart_queue (s : DemoState) :
    (scheduleSpeechRecognitionRestart s).queue = s.queue := by
  unfold scheduleSpeechRecognitionRestart
  split <;> rfl

/-- Claim C3: for every spoken text, a thrown TTS fetch, a non-OK
response, or an audio payload below the 100-byte plausibility threshold
routes synthesis to the browser's local speech synthesis with the same
text; when local synthesis is unavailable a non-fatal speech-unavailable
error is surfaced and the turn is still marked done; and completion of a
turn always clears the playing flag and continues queue processing
(an empty queue simply ends the turn, a nonempty queue has its head
spoken next), never a hard failure of the turn. -/
theorem C3_tts_fallback :
    (∀ t : String, speakText t TtsFetchOutcome.netError = SpeakPath.browserFallback t) ∧
    (∀ t : String, speakText t TtsFetchOutcome.httpNotOk = SpeakPath.browserFallback t) ∧
    (∀ (t : String) (size : Nat) (pf : Bool), size < minPlausibleAudioBytes →
      speakText t (TtsFetchOutcome.okBlob size pf) = SpeakPath.browserFallback t) ∧
    (∀ utterErr : Bool,
      (speakWithBrowserTTS false utterErr).ttsError = some "TTS not supported in this browser" ∧
      (speakWithBrowserTTS false utterErr).completed = true) ∧
    (∀ supported utterErr : Bool, (speakWithBrowserTTS supported utterErr).completed = true) ∧
    (∀ s : DemoState, s.queue = [] → (handleTTSComplete s).1.playing = false) ∧
    (∀ (s : DemoState) (h : String) (t : List String), s.queue = h :: t →
      (handleTTSComplete s).1.queue = t ∧
      DemoOut.ttsRequest h ∈ (handleTTSComplete s).2) := by
  refine ⟨fun t => rfl, fun t => rfl, ?_, ?_, ?_, ?_, ?_⟩
  · intro t size pf hsz
    simp [speakText, hsz]
  · intro utterErr
    exact ⟨rfl, rfl⟩
  · intro supported utterErr
    unfold speakWithBrowserTTS
    split
    · rfl
    · split <;> rfl
  · intro s hq
    unfold handleTTSComplete
    simp only [hq]
    split
    · rfl
    · simp
  · intro s h t hq
    unfold handleTTSComplete
    simp [hq, speakTextEffect]

/-- Closed instance of `C3_tts_fallback` at concrete inputs. -/
theorem C3_tts_fallback_witness :
    (42 < minPlausibleAudioBytes ∧
      speakText "hello" (TtsFetchOutcome.okBlob 42 false) = SpeakPath.browserFallback "hello") ∧
    ({ demoInit with playing := true } : DemoState).queue = [] ∧
    (handleTTSComplete { demoInit with playing := true }).1.playing = false ∧
    (handleTTSComplete { demoInit with queue := ["next"] }).1.queue = [] ∧
    DemoOut.ttsRequest "next" ∈ (handleTTSComplete { demoInit with queue := ["next"] }).2 :=
  ⟨⟨by decide, C3_tts_fallback.2.2.1 "hello" 42 false (by decide)⟩, rfl,
    C3_tts_fallback.2.2.2.2.2.1 { demoInit with playing := true } rfl,
    (C3_tts_fallback.2.2.2.2.2.2 { demoInit with queue := ["next"] } "next" [] rfl).1,
    (C3_tts_fallback.2.2.2.2.2.2 { demoInit with queue := ["next"] } "next" [] rfl).2⟩

/-- Claim C5: a candidate utterance finalized by the silence window is
always appended to the transcript as a candidate ("You: ") line; when it
arrives within the 3000 ms cooldown since the last AI response it
triggers no chat request; when the cooldown has elapsed and the AI is
not speaking, exactly one chat request is issued and the response time
is recorded. -/
theorem C5_cooldown_gates_chat :
    ∀ (s : DemoState) (now : Nat), s.silencePending = true →
      jsTrim s.pendingTranscript ≠ "" →
      (now - s.lastResponseTime < 3000 →
        (demoStep s (DemoEv.silenceFire now)).2 =
          [DemoOut.transcript ("You: " ++ jsTrim s.pendingTranscript)]) ∧
      (3000 ≤ now - s.lastResponseTime → s.playing = false →
        (demoStep s (DemoEv.silenceFire now)).2 =
          [DemoOut.transcript ("You: " ++ jsTrim s.pendingTranscript),
            DemoOut.chatRequest (jsTrim s.pendingTranscript)] ∧
        (demoStep s (DemoEv.silenceFire now)).1.lastResponseTime = now) := by
  intro s now hsil hne
  constructor
  · intro hcool
    simp [demoStep, silenceFireStep, hsil, hne, hcool]
  · intro hcool hplay
    have hlt : ¬(now - s.lastResponseTime < 3000) := not_lt.mpr hcool
    constructor
    · simp [demoStep, silenceFireStep, hsil, hne, hlt, hplay]
    · simp [demoStep, silenceFireStep, hsil, hne, hlt, hplay]

/-- Closed instance of `C5_cooldown_gates_chat`: the same utterance is
transcript-only inside the cooldown and makes exactly one chat request
outside it. -/
theorem C5_cooldown_gates_chat_witness :
    (demoStep { demoInit with pendingTranscript := " use a map", silencePending := true }
        (DemoEv.silenceFire 1000)).2 =
      [DemoOut.transcript ("You: " ++ jsTrim " use a map")] ∧
    (demoStep { demoInit with pendingTranscript := " use a map", silencePending := true }
        (DemoEv.silenceFire 5000)).2 =
      [DemoOut.transcript ("You: " ++ jsTrim " use a map"),
        DemoOut.chatRequest (jsTrim " use a map")] :=
  ⟨(C5_cooldown_gates_chat
      { demoInit with pendingTranscript := " use a map", silencePending := true } 1000
      rfl (by decide)).1 (by decide),
    ((C5_cooldown_gates_chat
      { demoInit with pendingTranscript := " use a map", silencePending := true } 5000
      rfl (by decide)).2 (by decide) rfl).1⟩

/-- At most one utterance is ever in the playback slot, on every trace:
`areteSpeakAIQ` is the only operation that starts playback, and it does
so only when the slot is empty. -/
theorem qRun_current_le_one (evs : List QEvent) :
    ∀ q : SpeakSt, q.current.length ≤ 1 → (qRun q evs).current.length ≤ 1 := by
  induction evs with
  | nil => intro q h; exact h
  | cons e es ih =>
    intro q h
    refine ih (qStep q e) ?_
    cases e with
    | req t =>
      cases hc : q.current with
      | nil => simp [qStep, areteSpeakAIQ, speakTextQ, hc]
      | cons c rest => simpa [qStep, areteSpeakAIQ, hc] using h
    | complete =>
      cases hc : q.current with
      | nil => simp [qStep, handleTTSCompleteQ, hc]
      | cons c rest =>
        have hrest : rest = [] := by
          rw [hc] at h
          simpa using h
        subst hrest
        cases hq : q.queue <;> simp [qStep, handleTTSCompleteQ, hc, hq]
    | handoffFire =>
      cases hp : q.pendingHandoff with
      | nil => simpa [qStep, handoffFireQ, hp] using h
      | cons hh hs =>
        cases hc : q.current with
        | nil => simp [qStep, handoffFireQ, hp, areteSpeakAIQ, speakTextQ, hc]
        | cons c rest => simpa [qStep, handoffFireQ, hp, areteSpeakAIQ, hc] using h

/-- Invariant preservation and order bookkeeping for the playback view
of the synthesis queue on traces where no speak request lands inside a
completion-to-handoff window: a step keeps at most one utterance
playing, at most one handoff pending, never both at once (the window is
open only while idle), keeps the queue empty when fully idle, and
extends finished ++ playing ++ pending ++ queued by exactly the step's
speak requests. -/
theorem qRun_fifo (evs : List QEvent) :
    ∀ q : SpeakSt, q.current.length ≤ 1 → q.pendingHandoff.length ≤ 1 →
      (q.current = [] ∨ q.pendingHandoff = []) →
      (q.current = [] → q.pendingHandoff = [] → q.queue = []) →
      noReqDuringHandoff q evs = true →
      (qRun q evs).current.length ≤ 1 ∧
      (qRun q evs).pendingHandoff.length ≤ 1 ∧
      ((qRun q evs).current = [] ∨ (qRun q evs).pendingHandoff = []) ∧
      ((qRun q evs).current = [] → (qRun q evs).pendingHandoff = [] →
        (qRun q evs).queue = []) ∧
      (qRun q evs).played ++ (qRun q evs).current ++ (qRun q evs).pendingHandoff ++
          (qRun q evs).queue =
        q.played ++ q.current ++ q.pendingHandoff ++ q.queue ++ qReqs evs := by
  induction evs with
  | nil =>
    intro q h1 h2 h3 h4 _
    exact ⟨h1, h2, h3, h4, by simp [qRun, qReqs]⟩
  | cons e es ih =>
    intro q h1 h2 h3 h4 hok
    rw [noReqDuringHandoff, Bool.and_eq_true] at hok
    have hstep : (qStep q e).current.length ≤ 1 ∧
        (qStep q e).pendingHandoff.length ≤ 1 ∧
        ((qStep q e).current = [] ∨ (qStep q e).pendingHandoff = []) ∧
        ((qStep q e).current = [] → (qStep q e).pendingHandoff = [] →
          (qStep q e).queue = []) ∧
        (qStep q e).played ++ (qStep q e).current ++ (qStep q e).pendingHandoff ++
            (qStep q e).queue =
          q.played ++ q.current ++ q.pendingHandoff ++ q.queue ++ qReqs [e] := by
      cases e with
      | req t =>
        have hpe : q.pendingHandoff = [] := by
          cases hp : q.pendingHandoff with
          | nil => rfl
          | cons x xs =>
            have h5 := hok.1
            simp [reqOkForFifo, hp] at h5
        cases hc : q.current with
        | nil =>
          have hq : q.queue = [] := h4 hc hpe
          simp [qStep, areteSpeakAIQ, speakTextQ, hc, hq, hpe, qReqs]
        | cons c rest =>
          have hrest : rest = [] := by
            rw [hc] at h1
            simpa using h1
          subst hrest
          simp [qStep, areteSpeakAIQ, speakTextQ, hc, hpe, qReqs]
      | complete =>
        cases hc : q.current with
        | nil =>
          have hid : qStep q QEvent.complete = q := by
            simp [qStep, handleTTSCompleteQ, hc]
          rw [hid]
          refine ⟨h1, h2, h3, h4, ?_⟩
          simp [qReqs, hc]
        | cons c rest =>
          have hrest : rest = [] := by
            rw [hc] at h1
            simpa using h1
          subst hrest
          have hpe : q.pendingHandoff = [] := by
            cases h3 with
            | inl h => rw [hc] at h; cases h
            | inr h => exact h
          cases hq : q.queue with
          | nil => simp [qStep, handleTTSCompleteQ, hc, hq, hpe, qReqs]
          | cons hh ht => simp [qStep, handleTTSCompleteQ, hc, hq, hpe, qReqs]
      | handoffFire =>
        cases hp : q.pendingHandoff with
        | nil =>
          have hid : qStep q QEvent.handoffFire = q := by
            simp [qStep, handoffFireQ, hp]
          rw [hid]
          refine ⟨h1, h2, h3, h4, ?_⟩
          simp [qReqs, hp]
        | cons hh hs =>
          have hce : q.current = [] := by
            cases h3 with
            | inl h => exact h
            | inr h => rw [hp] at h; cases h
          have hhs : hs = [] := by
            rw [hp] at h2
            simpa using h2
          subst hhs
          simp [qStep, handoffFireQ, hp, areteSpeakAIQ, speakTextQ, hce, qReqs]
    have hrec := ih (qStep q e) hstep.1 hstep.2.1 hstep.2.2.1 hstep.2.2.2.1 hok.2
    refine ⟨hrec.1, hrec.2.1, hrec.2.2.1, hrec.2.2.2.1, ?_⟩
    have heq : qRun q (e :: es) = qRun (qStep q e) es := rfl
    rw [heq, hrec.2.2.2.2, hstep.2.2.2.2]
    cases e with
    | req t => simp [qReqs, List.append_assoc]
    | complete => simp [qReqs]
    | handoffFire => simp [qReqs]

/-- Claim C2, amended: speech synthesis is serialized — at most one
utterance is ever in the playback slot, on every trace — and, provided
no speak request arrives in the 100 ms window between an utterance's
completion and the handoff of the dequeued queue head to the speak
entry point, playback is strictly FIFO: finished ++ playing ++
pending-handoff ++ queued always equals the requests in request order,
and two back-to-back requests "A" then "B" play fully one after the
other in that order. -/
theorem C2_fifo_serialization :
    (∀ evs : List QEvent, (qRun qInit evs).current.length ≤ 1) ∧
    (∀ evs : List QEvent, noReqDuringHandoff qInit evs = true →
      (qRun qInit evs).played ++ (qRun qInit evs).current ++
          (qRun qInit evs).pendingHandoff ++ (qRun qInit evs).queue = qReqs evs) ∧
    qRun qInit [QEvent.req "A", QEvent.req "B", QEvent.complete, QEvent.handoffFire,
        QEvent.complete] =
      { played := ["A", "B"], current := [], queue := [], pendingHandoff := [] } := by
  refine ⟨?_, ?_, rfl⟩
  · intro evs
    exact qRun_current_le_one evs qInit (by simp [qInit])
  · intro evs hok
    have h := qRun_fifo evs qInit (by simp [qInit]) (by simp [qInit]) (by simp [qInit])
      (by simp [qInit]) hok
    simpa [qInit] using h.2.2.2.2

/-- Closed instance of `C2_fifo_serialization`: a request-free handoff
window keeps playback in request order. -/
theorem C2_fifo_serialization_witness :
    noReqDuringHandoff qInit
        [QEvent.req "A", QEvent.req "B", QEvent.complete, QEvent.handoffFire,
          QEvent.complete] = true ∧
    (qRun qInit [QEvent.req "A", QEvent.req "B", QEvent.complete, QEvent.handoffFire,
          QEvent.complete]).played ++
        (qRun qInit [QEvent.req "A", QEvent.req "B", QEvent.complete, QEvent.handoffFire,
          QEvent.complete]).current ++
        (qRun qInit [QEvent.req "A", QEvent.req "B", QEvent.complete, QEvent.handoffFire,
          QEvent.complete]).pendingHandoff ++
        (qRun qInit [QEvent.req "A", QEvent.req "B", QEvent.complete, QEvent.handoffFire,
          QEvent.complete]).queue =
      qReqs [QEvent.req "A", QEvent.req "B", QEvent.complete, QEvent.handoffFire,
          QEvent.complete] :=
  ⟨by decide,
    C2_fifo_serialization.2.1
      [QEvent.req "A", QEvent.req "B", QEvent.complete, QEvent.handoffFire,
        QEvent.complete] (by decide)⟩

/-- Claim C2, counterexample: a speak request landing inside the 100 ms
completion-to-handoff window (test-ui.mjs lines 658-665) starts playing
immediately — `isPlayingRef` is false there — and the dequeued head is
then re-enqueued behind it by `__areteSpeakAI`: requests A, B, C finish
playing in the order A, C, B, so the dequeued head is not spoken next
and playback does not follow request order as claimed. -/
theorem C2_handoff_window_counterexample :
    qReqs [QEvent.req "A", QEvent.req "B", QEvent.complete, QEvent.req "C",
        QEvent.handoffFire, QEvent.complete, QEvent.handoffFire, QEvent.complete] =
      ["A", "B", "C"] ∧
    (qRun qInit [QEvent.req "A", QEvent.req "B", QEvent.complete, QEvent.req "C",
        QEvent.handoffFire, QEvent.complete, QEvent.handoffFire, QEvent.complete]).played =
      ["A", "C", "B"] := by
  constructor <;> rfl

/-- Per-event side condition of the amended mutual-exclusion claim: the
mic toggle must not be unmuting while AI synthesis is playing. -/
def evOkForMutex (s : DemoState) : DemoEv → Bool
  | DemoEv.toggleMic => !(s.muted && s.playing)
  | _ => true

/-- Trace condition for the amended mutual-exclusion claim: the mic
toggle is never used to unmute while AI synthesis is playing. -/
def noUnmuteWhileSpeaking : DemoState → List DemoEv → Bool
  | _, [] => true
  | s, e :: es => evOkForMutex s e && noUnmuteWhileSpeaking (demoStep s e).1 es

/-- One controller step preserves recognition/synthesis mutual
exclusion, provided a mic toggle does not unmute during synthesis. -/
theorem demoStep_mutex (s : DemoState) (e : DemoEv)
    (hinv : (s.recognizing && s.playing) = false)
    (hok : evOkForMutex s e = true) :
    ((demoStep s e).1.recognizing && (demoStep s e).1.playing) = false := by
  cases e with
  | speakReq t =>
    cases hp : s.playing with
    | false => simp [demoStep, areteSpeakAI, speakTextEffect, hp]
    | true =>
      rw [hp, Bool.and_true] at hinv
      simp [demoStep, areteSpeakAI, speakTextEffect, hp, hinv]
  | speakDirect t => simp [demoStep, speakTextEffect]
  | ttsComplete =>
    cases hq : s.queue with
    | cons h t => simp [demoStep, handleTTSComplete, hq, speakTextEffect]
    | nil =>
      simp only [demoStep]
      unfold handleTTSComplete
      simp only [hq]
      split
      · simp
      · simp
  | ttsEndFlagClear => simpa [demoStep] using hinv
  | restartFire =>
    simp only [demoStep]
    unfold restartFireStep
    by_cases h0 : s.restartTimers = 0
    · simpa [h0] using hinv
    · by_cases hmp : (s.muted || s.playing) = true
      · simpa [h0, hmp] using hinv
      · have hmp2 := hmp
        simp only [Bool.or_eq_true, not_or, Bool.not_eq_true] at hmp2
        by_cases hr : s.recognizing = true
        · simpa [h0, hmp, hr] using hinv
        · simp [h0, hmp, hr, hmp2.1, hmp2.2]
  | recEnded =>
    simp only [demoStep]
    unfold recEndedStep
    by_cases hj : s.ttsJustEnded = true
    · simp [hj]
    · by_cases hmp : (!s.muted && !s.playing) = true
      · simp [hj, hmp]
      · simp [hj, hmp]
  | recResult raw =>
    simp only [demoStep]
    unfold recResultStep
    by_cases hp : s.playing = true
    · simpa [hp] using hinv
    · by_cases hln : (jsTrim raw).length < 3
      · simp [hp, hln, hinv]
      · simp [hp, hln, hinv]
  | silenceFire now =>
    simp only [demoStep]
    unfold silenceFireStep
    by_cases h1 : (!s.silencePending) = true
    · simpa [h1] using hinv
    · by_cases h2 : jsTrim s.pendingTranscript = ""
      · simpa [h1, h2] using hinv
      · by_cases h3 : now - s.lastResponseTime < 3000
        · simpa [h1, h2, h3] using hinv
        · by_cases h4 : s.playing = true
          · simpa [h1, h2, h3, h4] using hinv
          · simp [h1, h2, h3, h4, hinv]
  | errServiceNotAllowed => simpa [demoStep, errServiceStep] using hinv
  | errNoSpeech => exact hinv
  | toggleMic =>
    simp only [demoStep]
    unfold toggleMicStep
    rw [evOkForMutex] at hok
    cases hm : s.muted with
    | false => simp [hm]
    | true =>
      rw [hm, Bool.true_and, Bool.not_eq_true'] at hok
      cases hr : s.recognizing with
      | true => simp [hm, hr, hinv, hok]
      | false => simp [hm, hr, hok]

/-- Mutual exclusion holds along any trace satisfying the unmute
condition, from any state satisfying it. -/
theorem demoRun_mutex (evs : List DemoEv) :
    ∀ s : DemoState, (s.recognizing && s.playing) = false →
      noUnmuteWhileSpeaking s evs = true →
      ((demoRun s evs).recognizing && (demoRun s evs).playing) = false := by
  induction evs with
  | nil => intro s hinv _; exact hinv
  | cons e es ih =>
    intro s hinv hok
    rw [noUnmuteWhileSpeaking, Bool.and_eq_true] at hok
    exact ih (demoStep s e).1 (demoStep_mutex s e hinv hok.1) hok.2

/-- `speakTextEffect` cancels the referenced restart timer, keeping the
timer count consistent with the reference. -/
theorem speakTextEffect_timerInv (s : DemoState)
    (h : s.restartTimers = if s.refLive then 1 else 0) :
    (speakTextEffect s).restartTimers =
      if (speakTextEffect s).refLive then 1 else 0 := by
  simp [speakTextEffect, h]

/-- `scheduleSpeechRecognitionRestart` keeps the timer count consistent
with the reference: it either rejects the request or replaces the
referenced timer with exactly one new timer. -/
theorem scheduleRestart_timerInv (s : DemoState)
    (h : s.restartTimers = if s.refLive then 1 else 0) :
    (scheduleSpeechRecognitionRestart s).restartTimers =
      if (scheduleSpeechRecognitionRestart s).refLive then 1 else 0 := by
  unfold scheduleSpeechRecognitionRestart
  split
  · exact h
  · simp [h]

/-- Every controller step keeps the number of live restart timers equal
to 1 when `restartTimeoutRef` references a live timer and 0 otherwise. -/
theorem demoStep_timerInv (s : DemoState) (e : DemoEv)
    (h : s.restartTimers = if s.refLive then 1 else 0) :
    (demoStep s e).1.restartTimers = if (demoStep s e).1.refLive then 1 else 0 := by
  cases e with
  | speakReq t =>
    by_cases hp : s.playing = true
    · simpa [demoStep, areteSpeakAI, hp] using h
    · simpa [demoStep, areteSpeakAI, hp] using speakTextEffect_timerInv s h
  | speakDirect t => simpa [demoStep] using speakTextEffect_timerInv s h
  | ttsComplete =>
    cases hq : s.queue with
    | cons hd tl =>
      simp [demoStep, handleTTSComplete, hq, speakTextEffect, h]
    | nil =>
      by_cases hm : s.muted = true
      · simpa [demoStep, handleTTSComplete, hq, hm] using h
      · simp only [demoStep]
        unfold handleTTSComplete
        simp only [hq, hm]
        rw [if_neg (by simp [hm])]
        exact scheduleRestart_timerInv _ (by simpa using h)
  | ttsEndFlagClear => simpa [demoStep] using h
  | restartFire =>
    simp only [demoStep]
    unfold restartFireStep
    by_cases h0 : s.restartTimers = 0
    · simpa [h0] using h
    · have hl : s.refLive = true := by
        cases hlv : s.refLive
        · rw [hlv] at h
          simp at h
          exact absurd h h0
        · rfl
      rw [hl] at h
      simp only [if_pos rfl] at h
      by_cases hmp : (s.muted || s.playing) = true
      · simp [h0, hmp, h]
      · by_cases hr : s.recognizing = true
        · simp [h0, hmp, hr, h]
        · simp [h0, hmp, hr, h]
  | recEnded =>
    simp only [demoStep]
    unfold recEndedStep
    by_cases hj : s.ttsJustEnded = true
    · simpa [hj] using h
    · by_cases hmp : (!s.muted && !s.playing) = true
      · have h2 := scheduleRestart_timerInv { s with recognizing := false } (by simpa using h)
        simpa [hj, hmp] using h2
      · simpa [hj, hmp] using h
  | recResult raw =>
    by_cases hp : s.playing = true
    · simpa [demoStep, recResultStep, hp] using h
    · by_cases hln : (jsTrim raw).length < 3
      · simpa [demoStep, recResultStep, hp, hln] using h
      · simpa [demoStep, recResultStep, hp, hln] using h
  | silenceFire now =>
    simp only [demoStep]
    unfold silenceFireStep
    by_cases h1 : (!s.silencePending) = true
    · simpa [h1] using h
    · by_cases h2 : jsTrim s.pendingTranscript = ""
      · simpa [h1, h2] using h
      · by_cases h3 : now - s.lastResponseTime < 3000
        · simpa [h1, h2, h3] using h
        · by_cases h4 : s.playing = true
          · simpa [h1, h2, h3, h4] using h
          · simpa [h1, h2, h3, h4] using h
  | errServiceNotAllowed =>
    simp only [demoStep]
    unfold errServiceStep
    exact scheduleRestart_timerInv _ (by simpa using h)
  | errNoSpeech => exact h
  | toggleMic =>
    simp only [demoStep]
    unfold toggleMicStep
    by_cases hm : (!s.muted) = true
    · simpa [hm] using h
    · by_cases hr : s.recognizing = true
      · simpa [hm, hr] using h
      · simpa [hm, hr] using h

/-- The timer-count/reference consistency holds along every trace. -/
theorem demoRun_timerInv (evs : List DemoEv) :
    ∀ s : DemoState, s.restartTimers = (if s.refLive then 1 else 0) →
      (demoRun s evs).restartTimers = if (demoRun s evs).refLive then 1 else 0 := by
  induction evs with
  | nil => intro s h; exact h
  | cons e es ih =>
    intro s h
    exact ih (demoStep s e).1 (demoStep_timerInv s e h)

/-- Claim C4: at most one speech-recognition restart timer is pending in
any reachable state, and a call to `scheduleSpeechRecognitionRestart`
while a restart is already scheduled is a no-op (the pending-restart
flag rejects it), so no sequence of restart requests ever arms two
concurrent timers. -/
theorem C4_single_restart_timer :
    (∀ evs : List DemoEv, (demoRun demoInit evs).restartTimers ≤ 1) ∧
    (∀ s : DemoState, s.restartScheduled = true →
      scheduleSpeechRecognitionRestart s = s) := by
  constructor
  · intro evs
    have h := demoRun_timerInv evs demoInit rfl
    rw [h]
    split <;> simp
  · intro s h
    simp [scheduleSpeechRecognitionRestart, h]

/-- Closed instance of `C4_single_restart_timer`: repeated backoff
restart requests leave at most one timer pending, and a request with the
flag already set changes nothing. -/
theorem C4_single_restart_timer_witness :
    (demoRun demoInit
        [DemoEv.errServiceNotAllowed, DemoEv.errServiceNotAllowed,
          DemoEv.recEnded]).restartTimers ≤ 1 ∧
    ({ demoInit with restartScheduled := true } : DemoState).restartScheduled = true ∧
    scheduleSpeechRecognitionRestart { demoInit with restartScheduled := true } =
      { demoInit with restartScheduled := true } :=
  ⟨C4_single_restart_timer.1
      [DemoEv.errServiceNotAllowed, DemoEv.errServiceNotAllowed, DemoEv.recEnded],
    rfl,
    C4_single_restart_timer.2 { demoInit with restartScheduled := true } rfl⟩

/-- Claim C10: while the user-facing mute flag is set, no event other
than the mic toggle itself can unmute, activate the recognizer, or call
`recognition.start()`: a new restart request while muted is rejected
outright, and a restart timer that fires after mute was enabled returns
without starting — recognition can only resume through an explicit
unmute via the microphone toggle. -/
theorem C10_mute_blocks_recognizer :
    (∀ (s : DemoState) (e : DemoEv), s.muted = true → e ≠ DemoEv.toggleMic →
      (demoStep s e).1.muted = true ∧
      ((demoStep s e).1.recognizing = true → s.recognizing = true) ∧
      DemoOut.startCall ∉ (demoStep s e).2) ∧
    (∀ s : DemoState, s.muted = true → scheduleSpeechRecognitionRestart s = s) := by
  constructor
  · intro s e hm hne
    cases e with
    | speakReq t =>
      by_cases hp : s.playing = true
      · simp [demoStep, areteSpeakAI, hp, hm]
      · simp [demoStep, areteSpeakAI, speakTextEffect, hp, hm]
    | speakDirect t => simp [demoStep, speakTextEffect, hm]
    | ttsComplete =>
      cases hq : s.queue with
      | cons hd tl => simp [demoStep, handleTTSComplete, hq, speakTextEffect, hm]
      | nil => simp [demoStep, handleTTSComplete, hq, hm]
    | ttsEndFlagClear => simp [demoStep, hm]
    | restartFire =>
      by_cases h0 : s.restartTimers = 0
      · simp [demoStep, restartFireStep, h0, hm]
      · simp [demoStep, restartFireStep, h0, hm]
    | recEnded =>
      by_cases hj : s.ttsJustEnded = true
      · simp [demoStep, recEndedStep, hj, hm]
      · simp [demoStep, recEndedStep, hj, hm]
    | recResult raw =>
      by_cases hp : s.playing = true
      · simp [demoStep, recResultStep, hp, hm]
      · by_cases hln : (jsTrim raw).length < 3
        · simp [demoStep, recResultStep, hp, hln, hm]
        · simp [demoStep, recResultStep, hp, hln, hm]
    | silenceFire now =>
      simp only [demoStep]
      unfold silenceFireStep
      by_cases h1 : (!s.silencePending) = true
      · simp [h1, hm]
      · by_cases h2 : jsTrim s.pendingTranscript = ""
        · simp [h1, h2, hm]
        · by_cases h3 : now - s.lastResponseTime < 3000
          · simp [h1, h2, h3, hm]
          · by_cases h4 : s.playing = true
            · simp [h1, h2, h3, h4, hm]
            · simp [h1, h2, h3, h4, hm]
    | errServiceNotAllowed => simp [demoStep, errServiceStep, hm]
    | errNoSpeech => simp [demoStep, hm]
    | toggleMic => exact absurd rfl hne
  · intro s h
    simp [scheduleSpeechRecognitionRestart, h]

/-- Closed instance of `C10_mute_blocks_recognizer`: with the mic muted,
a firing restart timer does not start the recognizer, and a new restart
request is rejected. -/
theorem C10_mute_blocks_recognizer_witness :
    ({ demoInit with muted := true, recognizing := false, restartTimers := 1,
                     refLive := true } : DemoState).muted = true ∧
    DemoOut.startCall ∉
      (demoStep
        { demoInit with muted := true, recognizing := false, restartTimers := 1,
                        refLive := true } DemoEv.restartFire).2 ∧
    scheduleSpeechRecognitionRestart { demoInit with muted := true } =
      { demoInit with muted := true } :=
  ⟨rfl,
    (C10_mute_blocks_recognizer.1
      { demoInit with muted := true, recognizing := false, restartTimers := 1,
                      refLive := true }
      DemoEv.restartFire rfl (by decide)).2.2,
    C10_mute_blocks_recognizer.2 { demoInit with muted := true } rfl⟩

/-- Claim C1, amended: provided the mic toggle is never used to unmute
while AI synthesis is playing, speech recognition and AI speech
synthesis are never simultaneously active in any reachable state;
moreover, unconditionally, starting a synthesis turn sets the playing
flag and stops the recognizer before the audio request is issued, and
incoming recognition results are ignored outright while the playing
flag is set. -/
theorem C1_mutual_exclusion :
    (∀ evs : List DemoEv, noUnmuteWhileSpeaking demoInit evs = true →
      ((demoRun demoInit evs).recognizing && (demoRun demoInit evs).playing) = false) ∧
    (∀ s : DemoState, (speakTextEffect s).playing = true ∧
      (speakTextEffect s).recognizing = false) ∧
    (∀ (s : DemoState) (raw : String), s.playing = true →
      demoStep s (DemoEv.recResult raw) = (s, [])) := by
  refine ⟨?_, ?_, ?_⟩
  · intro evs hok
    exact demoRun_mutex evs demoInit rfl hok
  · intro s
    exact ⟨rfl, rfl⟩
  · intro s raw hp
    simp [demoStep, recResultStep, hp]

/-- Closed instance of `C1_mutual_exclusion`: a trace that speaks,
completes, and restarts recognition keeps the two subsystems exclusive. -/
theorem C1_mutual_exclusion_witness :
    noUnmuteWhileSpeaking demoInit
        [DemoEv.speakReq "hi", DemoEv.ttsComplete, DemoEv.restartFire] = true ∧
    ((demoRun demoInit
        [DemoEv.speakReq "hi", DemoEv.ttsComplete, DemoEv.restartFire]).recognizing &&
      (demoRun demoInit
        [DemoEv.speakReq "hi", DemoEv.ttsComplete, DemoEv.restartFire]).playing) = false ∧
    ({ demoInit with playing := true } : DemoState).playing = true ∧
    demoStep { demoInit with playing := true } (DemoEv.recResult "echo of the AI voice") =
      ({ demoInit with playing := true }, []) :=
  ⟨by decide,
    C1_mutual_exclusion.1
      [DemoEv.speakReq "hi", DemoEv.ttsComplete, DemoEv.restartFire] (by decide),
    rfl,
    C1_mutual_exclusion.2.2 { demoInit with playing := true } "echo of the AI voice" rfl⟩

/-- Claim C1, counterexample: muting during AI speech and unmuting
again while it is still speaking calls `recognition.start()` with the
playing flag still set — recognition and synthesis are then active
simultaneously, refuting the unconditional invariant. -/
theorem C1_unmute_during_tts_counterexample :
    (demoRun demoInit [DemoEv.speakReq "hi", DemoEv.toggleMic, DemoEv.toggleMic]).recognizing
        = true ∧
    (demoRun demoInit [DemoEv.speakReq "hi", DemoEv.toggleMic, DemoEv.toggleMic]).playing
        = true := by
  constructor <;> rfl

/-- Claim C9: a message delivered to the interview page's transcript
handler is classified solely by a case-insensitive "you:" prefix test on
the text: if the text starts with "you:" it is appended as a candidate
entry with its first four characters removed and trimmed; any other text
— regardless of its actual origin or role field on the wire — is
appended unchanged as an AI entry. -/
theorem C9_transcript_classification :
    ∀ text : String, handleLiveKitMessage text = claimC9Classification text := by
  intro text
  rfl

/-- Claim C6: the source relays every editor change immediately — one
snapshot per change whenever the WebSocket is open — with no debounce
timer on the path, contradicting the claimed trailing-edge ~1.5 s
debounce.  On two changes 100 ms apart with the socket open, the code
emits two snapshots at the change times, while the claimed debounce
behaviour emits a single snapshot 1500 ms after the last change. -/
theorem C6_code_relay_not_debounced :
    codeRelayEmits true [(0, "a"), (100, "ab")] = [(0, "a"), (100, "ab")] ∧
    trailingDebounceSpec 1500 [(0, "a"), (100, "ab")] = [(1600, "ab")] ∧
    codeRelayEmits true [(0, "a"), (100, "ab")] ≠
      trailingDebounceSpec 1500 [(0, "a"), (100, "ab")] := by
  refine ⟨rfl, rfl, ?_⟩
  decide

/-- Claim C7, counterexample: a payload that parses as JSON but whose
`type` is not a recognized typed event — here a well-formed
code_snapshot message — is silently dropped by `handleDataReceived`
(no call to the message handler), not degraded to a plain-text
transcript line as claimed. -/
theorem C7_unknown_type_dropped :
    unrecognizedPayload (Payload.valid ⟨some "code_snapshot", none, some "def f: pass"⟩) ∧
    handleDataReceived (Payload.valid ⟨some "code_snapshot", none, some "def f: pass"⟩) = [] := by
  constructor
  · exact ⟨by decide, by decide⟩
  · rfl

/-- Claim C7, amended: a payload that cannot be parsed as JSON is
degraded to a plain-text transcript line delivered to the message
handler whenever its text is nonempty after trimming (an all-whitespace
payload produces nothing); a payload that parses but whose `type` is not
a recognized typed event is silently dropped, producing no message at
all; in neither case does the handler fail. -/
theorem C7_parse_failure_degrades :
    (∀ raw : String, jsTrim raw ≠ "" →
      handleDataReceived (Payload.invalid raw) = [some raw]) ∧
    (∀ raw : String, jsTrim raw = "" →
      handleDataReceived (Payload.invalid raw) = []) ∧
    (∀ j : JsonMsg, j.typeField ≠ some "transcript" → j.typeField ≠ some "message" →
      handleDataReceived (Payload.valid j) = []) := by
  refine ⟨?_, ?_, ?_⟩
  · intro raw h
    simp [handleDataReceived, h]
  · intro raw h
    simp [handleDataReceived, h]
  · intro j h1 h2
    simp [handleDataReceived, h1, h2]

/-- Closed instance of `C7_parse_failure_degrades` at concrete inputs. -/
theorem C7_parse_failure_degrades_witness :
    jsTrim "hello world" ≠ "" ∧
    handleDataReceived (Payload.invalid "hello world") = [some "hello world"] ∧
    handleDataReceived (Payload.valid ⟨some "hint", none, some "try a map"⟩) = [] :=
  ⟨by decide, C7_parse_failure_degrades.1 "hello world" (by decide),
    C7_parse_failure_degrades.2.2 ⟨some "hint", none, some "try a map"⟩ (by decide) (by decide)⟩

/-- Claim C8: with a live connected session, submission sends exactly
the current editor code to the backend and appends the closing
transcript line; on success a redirect is scheduled after a fixed
2000 ms delay; on failure the submitting flag is cleared (the session is
editable again), a retryable error is surfaced, and the candidate's code
is left unmodified in the editor — never silently discarded. -/
theorem C8_submit_handling :
    ∀ (s : PageState) (sid : String), s.sessionId = some sid → s.isConnected = true →
      (∀ url : Option String,
        (handleSubmit s (SubmitOutcome.ok url)).2 =
          [PageAction.submitSolution sid s.currentCode,
            PageAction.scheduleRedirect 2000 (url.getD ("/dashboard/" ++ sid))] ∧
        (handleSubmit s (SubmitOutcome.ok url)).1.messages = s.messages ++ [closingLine] ∧
        (handleSubmit s (SubmitOutcome.ok url)).1.currentCode = s.currentCode) ∧
      ((handleSubmit s SubmitOutcome.fail).2 =
          [PageAction.submitSolution sid s.currentCode,
            PageAction.alertMsg "Failed to submit solution. Please try again."] ∧
        (handleSubmit s SubmitOutcome.fail).1.isSubmitting = false ∧
        (handleSubmit s SubmitOutcome.fail).1.currentCode = s.currentCode ∧
        (handleSubmit s SubmitOutcome.fail).1.messages = s.messages ++ [closingLine]) := by
  intro s sid h1 h2
  refine ⟨?_, ?_⟩
  · intro url
    simp [handleSubmit, h1, h2]
  · simp [handleSubmit, h1, h2]

/-- Closed instance of `C8_submit_handling` at a concrete state: the
submission carries the editor code, and after a failure the code is
still there. -/
theorem C8_submit_handling_witness :
    (handleSubmit
        { sessionId := some "s1", isConnected := true, isSubmitting := false,
          currentCode := "pass", messages := [] } SubmitOutcome.fail).2 =
      [PageAction.submitSolution "s1" "pass",
        PageAction.alertMsg "Failed to submit solution. Please try again."] ∧
    (handleSubmit
        { sessionId := some "s1", isConnected := true, isSubmitting := false,
          currentCode := "pass", messages := [] } SubmitOutcome.fail).1.currentCode = "pass" :=
  ⟨((C8_submit_handling
      { sessionId := some "s1", isConnected := true, isSubmitting := false,
        currentCode := "pass", messages := [] } "s1" rfl rfl).2).1,
    ((C8_submit_handling
      { sessionId := some "s1", isConnected := true, isSubmitting := false,
        currentCode := "pass", messages := [] } "s1" rfl rfl).2).2.2.1⟩

end Arete
